import Mathlib

/-!
Shallow embedding of the `contract` attribute macro (src/src/lib.rs) of the
dojo-macros-in-scarb repository, together with proofs about its behaviour.

Modelling conventions:
* A Cairo token stream is modelled by its source text, a `String`.
* The parsed syntax node handed to the macro is modelled by `AstNode`: either
  a module declaration (`ContractModule`) or a node of any other kind.
* A module item is modelled by the data the macro actually inspects: its
  classifying name, its component texts (variants, members, parameters,
  statements) and its full source text (used by the catch-all arm of the
  `match`).
* Rust's `str::replace` (replace every non-overlapping occurrence, scanning
  left to right) is modelled by `rustReplace`; the patterns used by the macro
  are all non-empty, and `rustReplace` agrees with Rust on every non-empty
  pattern.
* Rust's `char::is_alphanumeric` is a Unicode property; on ASCII characters
  it coincides with `Char.isAlphanum`, which is what the model uses.  All
  names appearing in this development are ASCII.
* The two `include_str!` template files (`patches/contract.patch.cairo` and
  `patches/default_init.patch.cairo`) are not part of the sources; their
  contents are modelled from the spec (see their doc comments).
-/

namespace DojoContractMacro

/-- A fuel-indexed helper for `rustReplace`: replace every non-overlapping
occurrence of `pat` by `rep` in the character list, scanning left to right.
The fuel is always instantiated with the length of the list, which bounds the
number of steps. -/
def replaceAllAux (pat rep : List Char) : Nat → List Char → List Char
  | _, [] => []
  | 0, l => l
  | n + 1, c :: cs =>
    if pat ≠ [] ∧ pat.isPrefixOf (c :: cs) then
      rep ++ replaceAllAux pat rep n (List.drop pat.length (c :: cs))
    else
      c :: replaceAllAux pat rep n cs

/-- Model of Rust's `str::replace`: replace every non-overlapping occurrence
of `pat` in `s` by `rep`, scanning left to right.  (For the empty pattern
Rust inserts `rep` around every character; this model instead returns `s`
unchanged, but every pattern used by the macro — `$name$`, `$body$`,
`$init_name$` — is non-empty, where the two functions agree.) -/
def rustReplace (s pat rep : String) : String :=
  String.mk (replaceAllAux pat.data rep.data s.data.length s.data)

/-- Modelled from the spec: the file `src/patches/contract.patch.cairo` is not
under the sources.  Per the spec it is the outer contract template, an opaque
build-time constant in which the placeholders `$name$` and `$body$` each occur
exactly once. -/
def CONTRACT_PATCH : String :=
  "#[starknet::contract]\npub mod $name$ \x7b\n    use dojo::contract::components::upgradeable::upgradeable_cpt;\n    use dojo::contract::components::world_provider::world_provider_cpt;\n\n$body$\n\x7d\n"

/-- Modelled from the spec: the file `src/patches/default_init.patch.cairo` is
not under the sources.  Per the spec it is the default-init template, in which
the placeholder `$init_name$` occurs exactly once and whose content is the
Init augmentor's injected-only output (only the authorization guard). -/
def DEFAULT_INIT_PATCH : String :=
  "\n                #[abi(per_item)]\n                #[generate_trait]\n                pub impl IDojoInitImpl of IDojoInit \x7b\n                    #[external(v0)]\n                    fn $init_name$(self: @ContractState) \x7b\n                        if starknet::get_caller_address() != self.world_provider.world_dispatcher().contract_address \x7b\n                            core::panics::panic_with_byte_array(@format!(\"Only the world can init contract \x60\x7b\x7d\x60, but caller is \x60\x7b:?\x7d\x60\", self.dojo_name(), starknet::get_caller_address()));\n                        \x7d\n                    \x7d\n                \x7d\n                "

/-- `const CONSTRUCTOR_FN: &str = "constructor";` -/
def CONSTRUCTOR_FN : String := "constructor"

/-- `const DOJO_INIT_FN: &str = "dojo_init";` -/
def DOJO_INIT_FN : String := "dojo_init"

/-- A top-level item of the module body (`ModuleItem`), carrying exactly the
data the macro inspects: the classifying name, the component texts and the
item's full source text (`item.as_syntax_node().get_text(db)`). -/
inductive ModuleItem where
  | enumItem (name : String) (variants : List String) (text : String)
  | structItem (name : String) (members : List String) (text : String)
  | freeFunctionItem (name : String) (params : List String)
      (statements : List String) (text : String)
  | moduleItem (name : String) (text : String)
  | otherItem (text : String)
  deriving DecidableEq

/-- The item's full source text, as returned by
`item.as_syntax_node().get_text(db)`. -/
def ModuleItem.text : ModuleItem → String
  | .enumItem _ _ t => t
  | .structItem _ _ t => t
  | .freeFunctionItem _ _ _ t => t
  | .moduleItem _ t => t
  | .otherItem t => t

/-- The annotated module: its name and its body (`MaybeModuleBody`, `none`
when the module has no body). -/
structure ContractModule where
  name : String
  body : Option (List ModuleItem)
  deriving DecidableEq

/-- The syntax node handed to the macro: either a module declaration or a
node of any other kind (`module_ast.kind(&db)` not `ItemModule`). -/
inductive AstNode where
  | itemModule (m : ContractModule)
  | otherKind
  deriving DecidableEq

/-- `ProcMacroResult`: the replacement token stream text together with the
attached diagnostics (each diagnostic modelled by its message). -/
structure ProcMacroResult where
  content : String
  diagnostics : List String
  deriving DecidableEq

/-- `fn is_name_valid(name: &str) -> bool`:
`name.chars().all(|c| c.is_alphanumeric() || c == '_')`.
Rust's `char::is_alphanumeric` is a Unicode-wide property; the model uses
`Char.isAlphanum`, which coincides with it exactly on ASCII characters but
is narrower off-ASCII (the program accepts names such as `"é"` that this
model rejects).  Theorems characterising name validation therefore carry an
ASCII-name hypothesis restricting them to the domain where the model and the
program agree; theorems that merely *assume* a model-valid or model-invalid
name are unaffected, since every name the program rejects is also rejected
by the model, with identical result. -/
def is_name_valid (name : String) : Bool :=
  name.data.all (fun c => c.isAlphanum || c == '_')

/-- The diagnostic built for a nested module (its text is built, then
discarded, by the `for_each` closure). -/
def nestedModuleDiagnostic (name : String) : String :=
  ("The contract module \x27") ++ name ++ ("\x27 cannot contain nested modules.")

/-- The invalid-contract-name diagnostic. -/
def invalidNameDiagnostic (name : String) : String :=
  ("The contract name \x27") ++ name ++ ("\x27 can only contain characters (a-z/A-Z), digits (0-9) and underscore (_).")

/-- The diagnostic for a non-module target. -/
def INVALID_TARGET_DIAGNOSTIC : String :=
  "Contract macro can only be applied to modules"

/-- Head of the `format!` literal of `process_event`, up to its hole. -/
def EVENT_HEAD : String :=
  "\n        #[event]\n        #[derive(Drop, starknet::Event)]\n        enum Event \x7b\n            UpgradeableEvent: upgradeable_cpt::Event,\n            WorldProviderEvent: world_provider_cpt::Event,\n            "

/-- Tail of the `format!` literal of `process_event`, after its hole. -/
def EVENT_TAIL : String := "\n        \x7d\n        "

/-- `fn process_event`: the user's variant texts are joined with `",\n"` and
substituted into the enum template that lists the two infrastructure variants
first. -/
def process_event (variants : List String) : String :=
  EVENT_HEAD ++ String.intercalate (",\n") variants ++ EVENT_TAIL

/-- Head of the `format!` literal of `process_storage`, up to its hole. -/
def STORAGE_HEAD : String :=
  "\n        #[storage]\n        struct Storage \x7b\n            #[substorage(v0)]\n            upgradeable: upgradeable_cpt::Storage,\n            #[substorage(v0)]\n            world_provider: world_provider_cpt::Storage,\n            "

/-- Tail of the `format!` literal of `process_storage`, after its hole. -/
def STORAGE_TAIL : String := "\n        \x7d\n        "

/-- `fn process_storage`: the user's member texts are joined with `",\n"` and
substituted into the struct template that lists the two infrastructure
members first. -/
def process_storage (members : List String) : String :=
  STORAGE_HEAD ++ String.intercalate (",\n") members ++ STORAGE_TAIL

/-- Head of the `format!` literal of `process_constructor`, up to its hole. -/
def CTOR_HEAD : String :=
  "\n            #[constructor]\n            fn constructor("

/-- Part of the `format!` literal of `process_constructor` after its hole:
it closes the signature and injects the world-provider initializer call. -/
def CTOR_BODY_OPEN : String :=
  ") \x7b\n                self.world_provider.initializer();\n            "

/-- The first fragment produced by `process_constructor`: the attribute, the
signature around the parameter texts joined with `", "`, and the injected
initializer call. -/
def ctorHeadFragment (params : List String) : String :=
  CTOR_HEAD ++ String.intercalate (", ") params ++ CTOR_BODY_OPEN

/-- `fn process_constructor`: one fragment holding the attribute, the
signature (parameter texts joined with `", "`) and the injected initializer
call, then one fragment per user statement, then the closing brace. -/
def process_constructor (params statements : List String) : List String :=
  ctorHeadFragment params :: statements ++ [("\x7d")]

/-- The authorization-guard fragment injected by `process_init`. -/
def INIT_GUARD : String :=
  "if starknet::get_caller_address() != self.world_provider.world_dispatcher().contract_address \x7b\n            core::panics::panic_with_byte_array(@format!(\n                \"Only the world can init contract \x60\x7b\x7d\x60, but caller is \x60\x7b:?\x7d\x60\",\n                self.dojo_name(),\n                starknet::get_caller_address()\n            ));\n        \x7d"

/-- `fn process_init`: the fixed interface-implementation header fragments,
the function header (parameter texts joined with `", "`), the authorization
guard, one fragment per user statement, then the two closing braces. -/
def process_init (params statements : List String) : List String :=
  ([("#[abi(per_item)]"),
    ("#[generate_trait]"),
    ("pub impl IDojoInitImpl of IDojoInit \x7b"),
    ("#[external(v0)]"),
    ("fn " ++ DOJO_INIT_FN ++ "(" ++ String.intercalate (", ") params ++ ") \x7b"),
    INIT_GUARD]
   : List String) ++ statements ++ [("\x7d"), ("\x7d")]

/-- The canned default constructor fragment. -/
def DEFAULT_CONSTRUCTOR_FRAGMENT : String :=
  "\n                #[constructor]\n                fn constructor(ref self: ContractState) \x7b\n                    self.world_provider.initializer();\n                \x7d\n                "

/-- The canned default init fragment:
`DEFAULT_INIT_PATCH.replace("$init_name$", DOJO_INIT_FN)`. -/
def DEFAULT_INIT_FRAGMENT : String :=
  rustReplace DEFAULT_INIT_PATCH ("$init_name$") DOJO_INIT_FN

/-- The canned default event fragment. -/
def DEFAULT_EVENT_FRAGMENT : String :=
  "\n                #[event]\n                #[derive(Drop, starknet::Event)]\n                enum Event \x7b\n                    UpgradeableEvent: upgradeable_cpt::Event,\n                    WorldProviderEvent: world_provider_cpt::Event,\n                \x7d\n                "

/-- The canned default storage fragment. -/
def DEFAULT_STORAGE_FRAGMENT : String :=
  "\n                #[storage]\n                struct Storage \x7b\n                    #[substorage(v0)]\n                    upgradeable: upgradeable_cpt::Storage,\n                    #[substorage(v0)]\n                    world_provider: world_provider_cpt::Storage,\n                \x7d\n                "

/-- The classification accumulator: the fragment list `body_nodes` and the
four category flags. -/
structure ClassState where
  body_nodes : List String
  has_event : Bool
  has_storage : Bool
  has_init : Bool
  has_constructor : Bool
  deriving DecidableEq

/-- The initial accumulator: empty fragment list, all flags false. -/
def initState : ClassState :=
  { body_nodes := [], has_event := false, has_storage := false,
    has_init := false, has_constructor := false }

/-- One step of the classification loop: the `match item` of the source.
Enums named `Event`, structs named `Storage` and free functions named
`constructor` or `dojo_init` are augmented and flagged; enums, structs and
free functions with any other name fall out of the `if` without an `else`
and contribute nothing; every other item kind hits the `_` arm, which pushes
the item's source text verbatim. -/
def classifyItem (st : ClassState) (item : ModuleItem) : ClassState :=
  match item with
  | .enumItem name variants _ =>
    if name = ("Event") then
      { st with has_event := true,
                body_nodes := st.body_nodes ++ [process_event variants] }
    else st
  | .structItem name members _ =>
    if name = ("Storage") then
      { st with has_storage := true,
                body_nodes := st.body_nodes ++ [process_storage members] }
    else st
  | .freeFunctionItem name params statements _ =>
    if name = CONSTRUCTOR_FN then
      { st with has_constructor := true,
                body_nodes := st.body_nodes ++ process_constructor params statements }
    else if name = DOJO_INIT_FN then
      { st with has_init := true,
                body_nodes := st.body_nodes ++ process_init params statements }
    else st
  | .moduleItem _ text => { st with body_nodes := st.body_nodes ++ [text] }
  | .otherItem text => { st with body_nodes := st.body_nodes ++ [text] }

/-- The classification loop over the body items. -/
def classifyItems (st : ClassState) : List ModuleItem → ClassState
  | [] => st
  | item :: rest => classifyItems (classifyItem st item) rest

/-- The items of a `MaybeModuleBody`: the empty sequence when the module has
no body. -/
def moduleItems : Option (List ModuleItem) → List ModuleItem
  | none => []
  | some items => items

/-- The defaulting step: for each category whose flag is still false, push
one canned fragment, in the fixed source order constructor, init, event,
storage. -/
def addDefaults (st : ClassState) : List String :=
  st.body_nodes
    ++ (if st.has_constructor then [] else [DEFAULT_CONSTRUCTOR_FRAGMENT])
    ++ (if st.has_init then [] else [DEFAULT_INIT_FRAGMENT])
    ++ (if st.has_event then [] else [DEFAULT_EVENT_FRAGMENT])
    ++ (if st.has_storage then [] else [DEFAULT_STORAGE_FRAGMENT])

/-- The complete fragment list produced for a module body: classification
followed by defaulting. -/
def finalBodyNodes (body : Option (List ModuleItem)) : List String :=
  addDefaults (classifyItems initState (moduleItems body))

/-- `pub fn contract(_attr: TokenStream, item: TokenStream) -> ProcMacroResult`.
`item` is the original token stream text and `module_ast` the parsed node.
The nested-module scan of the source builds one diagnostic-carrying result
per nested module inside a `for_each` closure, but the closure's `return`
only leaves the closure: every such result is discarded and execution falls
through to name validation, so the scan is modelled by a discarded value.
(Nested modules are the body items of kind module; deeper descendants are
not modelled, which is behaviour-preserving since the scan's results are
thrown away.) -/
def contract (item : String) (module_ast : AstNode) : ProcMacroResult :=
  match module_ast with
  | .itemModule m =>
    let _discarded_nested_results : List ProcMacroResult :=
      (moduleItems m.body).filterMap fun i =>
        match i with
        | .moduleItem n _ =>
          some { content := item, diagnostics := [nestedModuleDiagnostic n] }
        | _ => none
    let name := m.name
    let diagnostics := [invalidNameDiagnostic name]
    if ¬ (is_name_valid name = true) then
      { content := item, diagnostics := diagnostics }
    else
      let body_nodes := finalBodyNodes m.body
      let body := String.intercalate ("\n") body_nodes
      let final_code :=
        rustReplace (rustReplace CONTRACT_PATCH ("$name$") name) ("$body$") body
      { content := final_code, diagnostics := [] }
  | .otherKind =>
    { content := item, diagnostics := [INVALID_TARGET_DIAGNOSTIC] }

/-! ### Specification-side definitions -/

/-- The contract-name character set of the spec, by Unicode code point:
65–90 is `A`–`Z`, 97–122 is `a`–`z`, 48–57 is `0`–`9`, plus the underscore. -/
def inContractNameCharset (c : Char) : Prop :=
  (65 ≤ c.toNat ∧ c.toNat ≤ 90) ∨ (97 ≤ c.toNat ∧ c.toNat ≤ 122) ∨
    (48 ≤ c.toNat ∧ c.toNat ≤ 57) ∨ c = ('_')

/-- The fragments a single item contributes to the body, stated item-locally:
the stateless counterpart of `classifyItem`. -/
def itemFragments : ModuleItem → List String
  | .enumItem name variants _ =>
    if name = ("Event") then [process_event variants] else []
  | .structItem name members _ =>
    if name = ("Storage") then [process_storage members] else []
  | .freeFunctionItem name params statements _ =>
    if name = CONSTRUCTOR_FN then process_constructor params statements
    else if name = DOJO_INIT_FN then process_init params statements
    else []
  | .moduleItem _ text => [text]
  | .otherItem text => [text]

/-- Concatenation of `itemFragments` over an item list, in encounter order. -/
def itemsFragments : List ModuleItem → List String
  | [] => []
  | i :: rest => itemFragments i ++ itemsFragments rest

/-- Is the item an enum named `Event`? -/
def isEventDecl : ModuleItem → Bool
  | .enumItem n _ _ => decide (n = ("Event"))
  | _ => false

/-- Is the item a struct named `Storage`? -/
def isStorageDecl : ModuleItem → Bool
  | .structItem n _ _ => decide (n = ("Storage"))
  | _ => false

/-- Is the item a free function named `constructor`? -/
def isConstructorDecl : ModuleItem → Bool
  | .freeFunctionItem n _ _ _ => decide (n = CONSTRUCTOR_FN)
  | _ => false

/-- Is the item a free function named `dojo_init`? -/
def isInitDecl : ModuleItem → Bool
  | .freeFunctionItem n _ _ _ => decide (n = DOJO_INIT_FN)
  | _ => false

/-- A fragment that declares the contract's event type: the canned default or
an augmented user enum. -/
def isEventFragment (f : String) : Prop :=
  f = DEFAULT_EVENT_FRAGMENT ∨ ∃ vs, f = process_event vs

/-- A fragment that declares the contract's storage: the canned default or an
augmented user struct. -/
def isStorageFragment (f : String) : Prop :=
  f = DEFAULT_STORAGE_FRAGMENT ∨ ∃ ms, f = process_storage ms

/-- A fragment that opens a constructor: the canned default or the head
fragment of an augmented user constructor. -/
def isConstructorFragment (f : String) : Prop :=
  f = DEFAULT_CONSTRUCTOR_FRAGMENT ∨ ∃ ps, f = ctorHeadFragment ps

/-- A fragment belonging to an init function: the canned default or the
injected authorization guard of an augmented user `dojo_init`. -/
def isInitFragment (f : String) : Prop :=
  f = DEFAULT_INIT_FRAGMENT ∨ f = INIT_GUARD

/-- Every successful body carries all four categories: some fragment of each
of the constructor, init, event and storage categories is present. -/
def CategoriesCovered (ns : List String) : Prop :=
  (∃ f ∈ ns, isConstructorFragment f) ∧ (∃ f ∈ ns, isInitFragment f) ∧
    (∃ f ∈ ns, isEventFragment f) ∧ (∃ f ∈ ns, isStorageFragment f)

/-- The infrastructure event variant backing the upgradeability capability. -/
def UPGRADEABLE_EVENT_VARIANT : String := "UpgradeableEvent: upgradeable_cpt::Event"

/-- The infrastructure event variant backing the world-provider capability. -/
def WORLD_PROVIDER_EVENT_VARIANT : String := "WorldProviderEvent: world_provider_cpt::Event"

/-- The infrastructure storage member backing the upgradeability capability
(with its substorage attribute). -/
def UPGRADEABLE_STORAGE_MEMBER : String :=
  "#[substorage(v0)]\n            upgradeable: upgradeable_cpt::Storage"

/-- The infrastructure storage member backing the world-provider capability
(with its substorage attribute). -/
def WORLD_PROVIDER_STORAGE_MEMBER : String :=
  "#[substorage(v0)]\n            world_provider: world_provider_cpt::Storage"

/-- The injected world-provider initializer call. -/
def WORLD_PROVIDER_INIT_CALL : String := "self.world_provider.initializer();"

/-! ### Helper lemmas -/

theorem name_char_ok (c : Char) :
    (c.isAlphanum || c == ('_')) = true ↔ inContractNameCharset c := by
  simp [Char.isAlphanum, Char.isAlpha, Char.isDigit, Char.isUpper, Char.isLower,
    inContractNameCharset, Char.toNat, UInt32.le_def, BitVec.le_def, UInt32.toNat]
  tauto

theorem classifyItem_body_nodes (st : ClassState) (i : ModuleItem) :
    (classifyItem st i).body_nodes = st.body_nodes ++ itemFragments i := by
  cases i with
  | enumItem n vs t => by_cases h : n = ("Event") <;> simp [classifyItem, itemFragments, h]
  | structItem n ms t => by_cases h : n = ("Storage") <;> simp [classifyItem, itemFragments, h]
  | freeFunctionItem n ps ss t =>
    by_cases h1 : n = CONSTRUCTOR_FN
    · simp [classifyItem, itemFragments, h1]
    · by_cases h2 : n = DOJO_INIT_FN <;>
        simp [classifyItem, itemFragments, h1, h2,
          (by decide : ¬ (DOJO_INIT_FN = CONSTRUCTOR_FN))]
  | moduleItem n t => simp [classifyItem, itemFragments]
  | otherItem t => simp [classifyItem, itemFragments]

theorem classifyItem_flags (st : ClassState) (i : ModuleItem) :
    (classifyItem st i).has_event = (st.has_event || isEventDecl i)
    ∧ (classifyItem st i).has_storage = (st.has_storage || isStorageDecl i)
    ∧ (classifyItem st i).has_constructor = (st.has_constructor || isConstructorDecl i)
    ∧ (classifyItem st i).has_init = (st.has_init || isInitDecl i) := by
  cases i with
  | enumItem n vs t =>
    by_cases h : n = ("Event") <;>
      simp [classifyItem, isEventDecl, isStorageDecl, isConstructorDecl, isInitDecl, h]
  | structItem n ms t =>
    by_cases h : n = ("Storage") <;>
      simp [classifyItem, isEventDecl, isStorageDecl, isConstructorDecl, isInitDecl, h]
  | freeFunctionItem n ps ss t =>
    by_cases h1 : n = CONSTRUCTOR_FN
    · simp [classifyItem, isEventDecl, isStorageDecl, isConstructorDecl, isInitDecl, h1,
        (by decide : ¬ (CONSTRUCTOR_FN = DOJO_INIT_FN))]
    · by_cases h2 : n = DOJO_INIT_FN <;>
        simp [classifyItem, isEventDecl, isStorageDecl, isConstructorDecl, isInitDecl, h1, h2,
          (by decide : ¬ (DOJO_INIT_FN = CONSTRUCTOR_FN))]
  | moduleItem n t =>
    simp [classifyItem, isEventDecl, isStorageDecl, isConstructorDecl, isInitDecl]
  | otherItem t =>
    simp [classifyItem, isEventDecl, isStorageDecl, isConstructorDecl, isInitDecl]

theorem classifyItems_body_nodes (items : List ModuleItem) :
    ∀ st : ClassState,
      (classifyItems st items).body_nodes = st.body_nodes ++ itemsFragments items := by
  induction items with
  | nil => intro st; simp [classifyItems, itemsFragments]
  | cons i rest ih =>
    intro st
    simp [classifyItems, ih, classifyItem_body_nodes, itemsFragments]

theorem classifyItems_has_event (items : List ModuleItem) :
    ∀ st : ClassState,
      (classifyItems st items).has_event = (st.has_event || items.any isEventDecl) := by
  induction items with
  | nil => intro st; simp [classifyItems]
  | cons i rest ih =>
    intro st
    simp [classifyItems, ih, (classifyItem_flags st i).1, Bool.or_assoc]

theorem classifyItems_has_storage (items : List ModuleItem) :
    ∀ st : ClassState,
      (classifyItems st items).has_storage = (st.has_storage || items.any isStorageDecl) := by
  induction items with
  | nil => intro st; simp [classifyItems]
  | cons i rest ih =>
    intro st
    simp [classifyItems, ih, (classifyItem_flags st i).2.1, Bool.or_assoc]

theorem classifyItems_has_constructor (items : List ModuleItem) :
    ∀ st : ClassState,
      (classifyItems st items).has_constructor
        = (st.has_constructor || items.any isConstructorDecl) := by
  induction items with
  | nil => intro st; simp [classifyItems]
  | cons i rest ih =>
    intro st
    simp [classifyItems, ih, (classifyItem_flags st i).2.2.1, Bool.or_assoc]

theorem classifyItems_has_init (items : List ModuleItem) :
    ∀ st : ClassState,
      (classifyItems st items).has_init = (st.has_init || items.any isInitDecl) := by
  induction items with
  | nil => intro st; simp [classifyItems]
  | cons i rest ih =>
    intro st
    simp [classifyItems, ih, (classifyItem_flags st i).2.2.2, Bool.or_assoc]

theorem itemsFragments_append (l₁ l₂ : List ModuleItem) :
    itemsFragments (l₁ ++ l₂) = itemsFragments l₁ ++ itemsFragments l₂ := by
  induction l₁ with
  | nil => simp [itemsFragments]
  | cons i rest ih => simp [itemsFragments, ih]

theorem itemFragments_of_isEventDecl (i : ModuleItem) (h : isEventDecl i = true) :
    ∃ vs, itemFragments i = [process_event vs] := by
  cases i <;> simp [isEventDecl] at h
  case enumItem n vs t => exact ⟨vs, by simp [itemFragments, h]⟩

theorem itemFragments_of_isStorageDecl (i : ModuleItem) (h : isStorageDecl i = true) :
    ∃ ms, itemFragments i = [process_storage ms] := by
  cases i <;> simp [isStorageDecl] at h
  case structItem n ms t => exact ⟨ms, by simp [itemFragments, h]⟩

theorem itemFragments_of_isConstructorDecl (i : ModuleItem) (h : isConstructorDecl i = true) :
    ∃ ps ss, itemFragments i = process_constructor ps ss := by
  cases i <;> simp [isConstructorDecl] at h
  case freeFunctionItem n ps ss t => exact ⟨ps, ss, by simp [itemFragments, h]⟩

theorem itemFragments_of_isInitDecl (i : ModuleItem) (h : isInitDecl i = true) :
    ∃ ps ss, itemFragments i = process_init ps ss := by
  cases i <;> simp [isInitDecl] at h
  case freeFunctionItem n ps ss t =>
    exact ⟨ps, ss, by
      simp [itemFragments, h, (by decide : ¬ (DOJO_INIT_FN = CONSTRUCTOR_FN))]⟩

theorem event_fragment_of_any (items : List ModuleItem)
    (h : items.any isEventDecl = true) :
    ∃ vs, process_event vs ∈ itemsFragments items := by
  induction items with
  | nil => simp at h
  | cons i rest ih =>
    simp only [List.any_cons, Bool.or_eq_true] at h
    rcases h with h | h
    · obtain ⟨vs, hvs⟩ := itemFragments_of_isEventDecl i h
      exact ⟨vs, by simp [itemsFragments, hvs]⟩
    · obtain ⟨vs, hvs⟩ := ih h
      exact ⟨vs, by simp [itemsFragments, hvs]⟩

theorem storage_fragment_of_any (items : List ModuleItem)
    (h : items.any isStorageDecl = true) :
    ∃ ms, process_storage ms ∈ itemsFragments items := by
  induction items with
  | nil => simp at h
  | cons i rest ih =>
    simp only [List.any_cons, Bool.or_eq_true] at h
    rcases h with h | h
    · obtain ⟨ms, hms⟩ := itemFragments_of_isStorageDecl i h
      exact ⟨ms, by simp [itemsFragments, hms]⟩
    · obtain ⟨ms, hms⟩ := ih h
      exact ⟨ms, by simp [itemsFragments, hms]⟩

theorem ctor_fragment_of_any (items : List ModuleItem)
    (h : items.any isConstructorDecl = true) :
    ∃ ps, ctorHeadFragment ps ∈ itemsFragments items := by
  induction items with
  | nil => simp at h
  | cons i rest ih =>
    simp only [List.any_cons, Bool.or_eq_true] at h
    rcases h with h | h
    · obtain ⟨ps, ss, hps⟩ := itemFragments_of_isConstructorDecl i h
      exact ⟨ps, by simp [itemsFragments, hps, process_constructor]⟩
    · obtain ⟨ps, hps⟩ := ih h
      exact ⟨ps, by simp [itemsFragments, hps]⟩

theorem init_guard_of_any (items : List ModuleItem)
    (h : items.any isInitDecl = true) :
    INIT_GUARD ∈ itemsFragments items := by
  induction items with
  | nil => simp at h
  | cons i rest ih =>
    simp only [List.any_cons, Bool.or_eq_true] at h
    rcases h with h | h
    · obtain ⟨ps, ss, hps⟩ := itemFragments_of_isInitDecl i h
      simp [itemsFragments, hps, process_init]
    · simp [itemsFragments, ih h]

theorem mem_addDefaults_of_mem (st : ClassState) (f : String)
    (h : f ∈ st.body_nodes) : f ∈ addDefaults st := by
  unfold addDefaults
  simp only [List.append_assoc, List.mem_append]
  exact Or.inl h

theorem default_ctor_mem (st : ClassState) (h : st.has_constructor = false) :
    DEFAULT_CONSTRUCTOR_FRAGMENT ∈ addDefaults st := by
  simp [addDefaults, h]

theorem default_init_mem (st : ClassState) (h : st.has_init = false) :
    DEFAULT_INIT_FRAGMENT ∈ addDefaults st := by
  simp [addDefaults, h]

theorem default_event_mem (st : ClassState) (h : st.has_event = false) :
    DEFAULT_EVENT_FRAGMENT ∈ addDefaults st := by
  simp [addDefaults, h]

theorem default_storage_mem (st : ClassState) (h : st.has_storage = false) :
    DEFAULT_STORAGE_FRAGMENT ∈ addDefaults st := by
  simp [addDefaults, h]

theorem categories_covered (body : Option (List ModuleItem)) :
    CategoriesCovered (finalBodyNodes body) := by
  have hbody : (classifyItems initState (moduleItems body)).body_nodes
      = itemsFragments (moduleItems body) := by
    simp [classifyItems_body_nodes, initState]
  refine ⟨?_, ?_, ?_, ?_⟩
  · cases hc : (classifyItems initState (moduleItems body)).has_constructor with
    | false =>
      exact ⟨DEFAULT_CONSTRUCTOR_FRAGMENT, default_ctor_mem _ hc, Or.inl rfl⟩
    | true =>
      have hany : (moduleItems body).any isConstructorDecl = true := by
        have := classifyItems_has_constructor (moduleItems body) initState
        rw [this] at hc
        simpa [initState] using hc
      obtain ⟨ps, hps⟩ := ctor_fragment_of_any _ hany
      exact ⟨ctorHeadFragment ps,
        mem_addDefaults_of_mem _ _ (by rwa [hbody]), Or.inr ⟨ps, rfl⟩⟩
  · cases hc : (classifyItems initState (moduleItems body)).has_init with
    | false => exact ⟨DEFAULT_INIT_FRAGMENT, default_init_mem _ hc, Or.inl rfl⟩
    | true =>
      have hany : (moduleItems body).any isInitDecl = true := by
        have := classifyItems_has_init (moduleItems body) initState
        rw [this] at hc
        simpa [initState] using hc
      exact ⟨INIT_GUARD,
        mem_addDefaults_of_mem _ _ (by rw [hbody]; exact init_guard_of_any _ hany),
        Or.inr rfl⟩
  · cases hc : (classifyItems initState (moduleItems body)).has_event with
    | false => exact ⟨DEFAULT_EVENT_FRAGMENT, default_event_mem _ hc, Or.inl rfl⟩
    | true =>
      have hany : (moduleItems body).any isEventDecl = true := by
        have := classifyItems_has_event (moduleItems body) initState
        rw [this] at hc
        simpa [initState] using hc
      obtain ⟨vs, hvs⟩ := event_fragment_of_any _ hany
      exact ⟨process_event vs,
        mem_addDefaults_of_mem _ _ (by rwa [hbody]), Or.inr ⟨vs, rfl⟩⟩
  · cases hc : (classifyItems initState (moduleItems body)).has_storage with
    | false => exact ⟨DEFAULT_STORAGE_FRAGMENT, default_storage_mem _ hc, Or.inl rfl⟩
    | true =>
      have hany : (moduleItems body).any isStorageDecl = true := by
        have := classifyItems_has_storage (moduleItems body) initState
        rw [this] at hc
        simpa [initState] using hc
      obtain ⟨ms, hms⟩ := storage_fragment_of_any _ hany
      exact ⟨process_storage ms,
        mem_addDefaults_of_mem _ _ (by rwa [hbody]), Or.inr ⟨ms, rfl⟩⟩

/-! ### Claims -/

set_option maxRecDepth 40000

/-- C1 counterexample: a module body consisting of a single enum named `Foo`
— an item that is none of the four recognized categories — produces an empty
fragment list; in particular the item's original source text is not appended,
so the claimed verbatim pass-through of unrecognized items is false. -/
theorem c1_counterexample :
    (classifyItems initState
        [ModuleItem.enumItem ("Foo") [("A")] ("enum Foo \x7b A \x7d")]).body_nodes = []
    ∧ ("enum Foo \x7b A \x7d") ∉
        (classifyItems initState
          [ModuleItem.enumItem ("Foo") [("A")] ("enum Foo \x7b A \x7d")]).body_nodes := by
  decide

/-- C1 (amended): the fragment list is the in-order concatenation of the
per-item fragments, so fragments appear in encounter order and augmented
items are never reordered relative to other items; items hitting the
catch-all arm (any kind other than enum, struct or free function, including
nested-module items) are appended verbatim; but enums not named `Event`,
structs not named `Storage` and free functions named neither `constructor`
nor `dojo_init` contribute no fragment at all. -/
theorem c1_fragment_order :
    (∀ items : List ModuleItem,
      (classifyItems initState items).body_nodes = itemsFragments items)
    ∧ (∀ t, itemFragments (.otherItem t) = [t])
    ∧ (∀ n t, itemFragments (.moduleItem n t) = [t])
    ∧ (∀ n vs t, n ≠ ("Event") → itemFragments (.enumItem n vs t) = [])
    ∧ (∀ n ms t, n ≠ ("Storage") → itemFragments (.structItem n ms t) = [])
    ∧ (∀ n ps ss t, n ≠ CONSTRUCTOR_FN → n ≠ DOJO_INIT_FN →
        itemFragments (.freeFunctionItem n ps ss t) = []) := by
  refine ⟨?_, ?_, ?_, ?_, ?_, ?_⟩
  · intro items
    simp [classifyItems_body_nodes, initState]
  · intro t; simp [itemFragments]
  · intro n t; simp [itemFragments]
  · intro n vs t h; simp [itemFragments, h]
  · intro n ms t h; simp [itemFragments, h]
  · intro n ps ss t h1 h2; simp [itemFragments, h1, h2]

/-- C1 witness: the amended theorem applied at concrete inputs — an enum
named `Foo` contributes nothing, and a one-item body of an unrecognized kind
yields exactly its per-item fragments. -/
theorem c1_fragment_order_witness :
    itemFragments (.enumItem ("Foo") [("A")] ("enum Foo \x7b A \x7d")) = []
    ∧ (classifyItems initState [ModuleItem.otherItem ("use x;")]).body_nodes
        = itemsFragments [ModuleItem.otherItem ("use x;")] :=
  ⟨c1_fragment_order.2.2.2.1 ("Foo") [("A")] ("enum Foo \x7b A \x7d") (by decide),
   c1_fragment_order.1 [ModuleItem.otherItem ("use x;")]⟩

/-- C2: actual code behaviour at the failing input — a module `Outer`
containing a nested module `Inner`.  The nested-module scan builds its
diagnostic inside the `for_each` closure, but the closure's `return` only
leaves the closure, so the result is discarded: expansion continues, no
diagnostic is attached, generated output is produced (it is not the original
input), and the nested module's text is even carried into the output body by
the catch-all arm. -/
theorem c2_nested_module_not_aborted :
    (contract ("orig") (.itemModule ⟨("Outer"),
        some [ModuleItem.moduleItem ("Inner") ("mod Inner \x7b\x7d")]⟩)).diagnostics = []
    ∧ nestedModuleDiagnostic ("Inner") ∉
        (contract ("orig") (.itemModule ⟨("Outer"),
          some [ModuleItem.moduleItem ("Inner") ("mod Inner \x7b\x7d")]⟩)).diagnostics
    ∧ (contract ("orig") (.itemModule ⟨("Outer"),
        some [ModuleItem.moduleItem ("Inner") ("mod Inner \x7b\x7d")]⟩)).content ≠ ("orig")
    ∧ (contract ("orig") (.itemModule ⟨("Outer"),
        some [ModuleItem.moduleItem ("Inner") ("mod Inner \x7b\x7d")]⟩)).content
        = rustReplace (rustReplace CONTRACT_PATCH ("$name$") ("Outer")) ("$body$")
            (String.intercalate ("\n")
              [("mod Inner \x7b\x7d"), DEFAULT_CONSTRUCTOR_FRAGMENT,
               DEFAULT_INIT_FRAGMENT, DEFAULT_EVENT_FRAGMENT, DEFAULT_STORAGE_FRAGMENT])
    ∧ nestedModuleDiagnostic ("Inner")
        = ("The contract module \x27Inner\x27 cannot contain nested modules.") := by
  refine ⟨by decide, by decide, ?_, ?_, by decide⟩
  · intro heq
    exact (by decide :
        ¬ ((contract ("orig") (.itemModule ⟨("Outer"),
            some [ModuleItem.moduleItem ("Inner") ("mod Inner \x7b\x7d")]⟩)).content.data.head?
          = ("orig").data.head?))
      (congrArg (fun s : String => s.data.head?) heq)
  · simp [contract, finalBodyNodes, moduleItems, classifyItems, classifyItem, addDefaults,
      initState, itemFragments, (by decide : is_name_valid ("Outer") = true)]

/-- C3 counterexample: the empty module name.  The claim says the validator
accepts a name only if it is non-empty, but `is_name_valid` uses
`chars().all(..)`, which is vacuously true on the empty string: the empty
name is accepted and expansion succeeds with no diagnostic. -/
theorem c3_empty_name_accepted :
    is_name_valid ("") = true
    ∧ (contract ("orig") (.itemModule ⟨(""), none⟩)).diagnostics = []
    ∧ invalidNameDiagnostic ("") ∉
        (contract ("orig") (.itemModule ⟨(""), none⟩)).diagnostics := by
  refine ⟨by decide, by decide, by decide⟩

/-- C3 (amended): for a name made of ASCII characters — the domain on which
Rust's Unicode-wide `char::is_alphanumeric` coincides with the model's ASCII
predicate — the validator accepts the name if and only if every character of
it is in `[A-Za-z0-9_]`; in particular the empty name is accepted; and if
such a name contains a character outside that set, expansion fails with the
invalid-contract-name diagnostic and passes the input through.  (Non-ASCII
names are outside this statement: there the program's Unicode check accepts
additional alphanumeric characters.) -/
theorem c3_name_charset (name : String)
    (_hascii : ∀ c ∈ name.data, c.toNat < 128) :
    (is_name_valid name = true ↔ ∀ c ∈ name.data, inContractNameCharset c)
    ∧ (is_name_valid name = false →
        ∀ (item : String) (body : Option (List ModuleItem)),
          contract item (.itemModule ⟨name, body⟩)
            = ⟨item, [invalidNameDiagnostic name]⟩) := by
  constructor
  · rw [is_name_valid, List.all_eq_true]
    exact forall₂_congr fun c _ => name_char_ok c
  · intro h item body
    simp [contract, h]

/-- C3 witness: the amended theorem applied at the ASCII name
`"My-Contract"`, whose `-` is outside the character set: expansion fails
with the diagnostic and returns the original input. -/
theorem c3_name_charset_witness :
    (∀ c ∈ ("My-Contract").data, c.toNat < 128)
    ∧ is_name_valid ("My-Contract") = false
    ∧ contract ("orig") (.itemModule ⟨("My-Contract"), none⟩)
        = ⟨("orig"), [invalidNameDiagnostic ("My-Contract")]⟩ :=
  ⟨by decide, by decide,
   (c3_name_charset ("My-Contract") (by decide)).2 (by decide) ("orig") none⟩

/-- C4 counterexample: a module `Foo` with two structs both named `Storage`.
The claim says expansion fails with a duplicate-declaration diagnostic and no
output; instead expansion succeeds with no diagnostic and both augmented
storage fragments are emitted, followed by the constructor, init and event
defaults. -/
theorem c4_duplicate_storage_emitted :
    (contract ("orig") (.itemModule ⟨("Foo"),
        some [ModuleItem.structItem ("Storage") [("a: felt252")] ("s1"),
              ModuleItem.structItem ("Storage") [("b: felt252")] ("s2")]⟩)).diagnostics = []
    ∧ finalBodyNodes
        (some [ModuleItem.structItem ("Storage") [("a: felt252")] ("s1"),
               ModuleItem.structItem ("Storage") [("b: felt252")] ("s2")])
        = [process_storage [("a: felt252")], process_storage [("b: felt252")],
           DEFAULT_CONSTRUCTOR_FRAGMENT, DEFAULT_INIT_FRAGMENT, DEFAULT_EVENT_FRAGMENT] := by
  refine ⟨by decide, by decide⟩

/-- C4 (amended): when the same category matches more than once, no
diagnostic is raised: each match is augmented and appended at its encounter
position (here shown for two `Storage` structs surrounded by arbitrary
items), and expansion of any validly named module containing them still
succeeds with an empty diagnostic list. -/
theorem c4_duplicates_appended (before mid after : List ModuleItem)
    (ms₁ ms₂ : List String) (t₁ t₂ : String) :
    itemsFragments (before ++ [ModuleItem.structItem ("Storage") ms₁ t₁]
        ++ mid ++ [ModuleItem.structItem ("Storage") ms₂ t₂] ++ after)
      = itemsFragments before ++ [process_storage ms₁] ++ itemsFragments mid
        ++ [process_storage ms₂] ++ itemsFragments after
    ∧ (∀ item name : String, is_name_valid name = true →
        (contract item (.itemModule ⟨name,
          some (before ++ [ModuleItem.structItem ("Storage") ms₁ t₁]
            ++ mid ++ [ModuleItem.structItem ("Storage") ms₂ t₂] ++ after)⟩)).diagnostics
          = []) := by
  constructor
  · simp [itemsFragments_append, itemsFragments, itemFragments]
  · intro item name h
    simp [contract, h]

/-- C4 witness: the amended theorem applied to a module `Foo` holding exactly
two `Storage` structs: expansion succeeds with no diagnostics. -/
theorem c4_duplicates_appended_witness :
    is_name_valid ("Foo") = true
    ∧ (contract ("orig") (.itemModule ⟨("Foo"),
        some (([] : List ModuleItem) ++ [ModuleItem.structItem ("Storage") [("a: u8")] ("s1")]
          ++ [] ++ [ModuleItem.structItem ("Storage") [("b: u8")] ("s2")] ++ [])⟩)).diagnostics
        = [] :=
  ⟨by decide,
   (c4_duplicates_appended [] [] [] [("a: u8")] [("b: u8")] ("s1") ("s2")).2
     ("orig") ("Foo") (by decide)⟩

/-- C5: the rewritten `Event` enum consists of a fixed head, the user's
variants joined with `",\n"` in original order, and a fixed tail, where the
head declares the upgradeability infrastructure variant first and the
world-provider infrastructure variant second, both before the hole that
receives the user's variants; the rewritten `Storage` struct likewise
prepends the two infrastructure members before the user's members; and the
classifier installs exactly these rewrites for an enum named `Event` and a
struct named `Storage`. -/
theorem c5_infra_first :
    (∀ variants : List String,
      process_event variants
        = EVENT_HEAD ++ String.intercalate (",\n") variants ++ EVENT_TAIL)
    ∧ EVENT_HEAD
        = ("\n        #[event]\n        #[derive(Drop, starknet::Event)]\n        enum Event \x7b\n            ")
          ++ UPGRADEABLE_EVENT_VARIANT ++ (",\n            ")
          ++ WORLD_PROVIDER_EVENT_VARIANT ++ (",\n            ")
    ∧ (∀ members : List String,
      process_storage members
        = STORAGE_HEAD ++ String.intercalate (",\n") members ++ STORAGE_TAIL)
    ∧ STORAGE_HEAD
        = ("\n        #[storage]\n        struct Storage \x7b\n            ")
          ++ UPGRADEABLE_STORAGE_MEMBER ++ (",\n            ")
          ++ WORLD_PROVIDER_STORAGE_MEMBER ++ (",\n            ")
    ∧ (∀ (st : ClassState) (vs : List String) (t : String),
        classifyItem st (.enumItem ("Event") vs t)
          = { st with has_event := true,
                      body_nodes := st.body_nodes ++ [process_event vs] })
    ∧ (∀ (st : ClassState) (ms : List String) (t : String),
        classifyItem st (.structItem ("Storage") ms t)
          = { st with has_storage := true,
                      body_nodes := st.body_nodes ++ [process_storage ms] }) := by
  refine ⟨fun _ => rfl, by decide, fun _ => rfl, by decide, ?_, ?_⟩
  · intro st vs t; simp [classifyItem]
  · intro st ms t; simp [classifyItem]

/-- C6: the rewritten constructor's head fragment reuses the original
parameter texts joined with `", "` inside `fn constructor(...)`, its body
opens with the injected world-provider initializer call, the user's original
statements follow in order as separate fragments, and a closing brace ends
the function; the classifier installs exactly this rewrite for a free
function named `constructor`. -/
theorem c6_constructor_rewrite :
    (∀ params statements : List String,
      process_constructor params statements
        = (CTOR_HEAD ++ String.intercalate (", ") params ++ CTOR_BODY_OPEN)
            :: statements ++ [("\x7d")])
    ∧ CTOR_HEAD = ("\n            #[constructor]\n            fn constructor(")
    ∧ CTOR_BODY_OPEN
        = (") \x7b\n                ") ++ WORLD_PROVIDER_INIT_CALL ++ ("\n            ")
    ∧ (∀ (st : ClassState) (ps ss : List String) (t : String),
        classifyItem st (.freeFunctionItem CONSTRUCTOR_FN ps ss t)
          = { st with has_constructor := true,
                      body_nodes := st.body_nodes ++ process_constructor ps ss }) := by
  refine ⟨fun _ _ => rfl, by decide, by decide, ?_⟩
  intro st ps ss t; simp [classifyItem]

/-- C7: the rewritten init is an interface implementation: the fixed header
fragments open `pub impl IDojoInitImpl of IDojoInit`, mark the single
function `#[external(v0)]`, its parameter texts are joined with `", "`
verbatim inside `fn dojo_init(...)`, its body opens with the authorization
guard — which compares `starknet::get_caller_address()` against the world
dispatcher's `contract_address` and panics with a message naming the
contract (`self.dojo_name()`) and the offending caller — then the user's
statements follow in order and two closing braces end the function and the
implementation; the classifier installs exactly this rewrite for a free
function named `dojo_init`. -/
theorem c7_init_rewrite :
    (∀ params statements : List String,
      process_init params statements
        = [("#[abi(per_item)]"), ("#[generate_trait]"),
           ("pub impl IDojoInitImpl of IDojoInit \x7b"), ("#[external(v0)]"),
           ("fn ") ++ DOJO_INIT_FN ++ ("(")
             ++ String.intercalate (", ") params ++ (") \x7b"),
           INIT_GUARD] ++ statements ++ [("\x7d"), ("\x7d")])
    ∧ ("fn ") ++ DOJO_INIT_FN ++ ("(") = ("fn dojo_init(")
    ∧ ("starknet::get_caller_address() != self.world_provider.world_dispatcher().contract_address").data
        <:+: INIT_GUARD.data
    ∧ ("core::panics::panic_with_byte_array").data <:+: INIT_GUARD.data
    ∧ ("Only the world can init contract").data <:+: INIT_GUARD.data
    ∧ ("self.dojo_name()").data <:+: INIT_GUARD.data
    ∧ (∀ (st : ClassState) (ps ss : List String) (t : String),
        classifyItem st (.freeFunctionItem DOJO_INIT_FN ps ss t)
          = { st with has_init := true,
                      body_nodes := st.body_nodes ++ process_init ps ss }) := by
  refine ⟨fun _ _ => rfl, by decide, by decide, by decide, by decide, by decide, ?_⟩
  intro st ps ss t
  simp [classifyItem, (by decide : ¬ (DOJO_INIT_FN = CONSTRUCTOR_FN))]

/-- C8: a validly named module with an empty body (whether an empty item list
or an absent body) expands with no diagnostics to the contract template with
the name substituted for `$name$` and `$body$` replaced by exactly the four
canned default fragments in the fixed order constructor, init, event,
storage, joined by newlines. -/
theorem c8_empty_body_defaults (item name : String) (h : is_name_valid name = true) :
    contract item (.itemModule ⟨name, some []⟩)
      = ⟨rustReplace (rustReplace CONTRACT_PATCH ("$name$") name) ("$body$")
          (String.intercalate ("\n")
            [DEFAULT_CONSTRUCTOR_FRAGMENT, DEFAULT_INIT_FRAGMENT,
             DEFAULT_EVENT_FRAGMENT, DEFAULT_STORAGE_FRAGMENT]), []⟩
    ∧ contract item (.itemModule ⟨name, none⟩)
      = ⟨rustReplace (rustReplace CONTRACT_PATCH ("$name$") name) ("$body$")
          (String.intercalate ("\n")
            [DEFAULT_CONSTRUCTOR_FRAGMENT, DEFAULT_INIT_FRAGMENT,
             DEFAULT_EVENT_FRAGMENT, DEFAULT_STORAGE_FRAGMENT]), []⟩ := by
  constructor <;>
    simp [contract, h, finalBodyNodes, moduleItems, classifyItems, addDefaults, initState]

/-- C8 witness: the theorem applied to the module `Foo`. -/
theorem c8_empty_body_defaults_witness :
    is_name_valid ("Foo") = true
    ∧ contract ("orig") (.itemModule ⟨("Foo"), some []⟩)
        = ⟨rustReplace (rustReplace CONTRACT_PATCH ("$name$") ("Foo")) ("$body$")
            (String.intercalate ("\n")
              [DEFAULT_CONSTRUCTOR_FRAGMENT, DEFAULT_INIT_FRAGMENT,
               DEFAULT_EVENT_FRAGMENT, DEFAULT_STORAGE_FRAGMENT]), []⟩ :=
  ⟨by decide, (c8_empty_body_defaults ("orig") ("Foo") (by decide)).1⟩

/-- C9: every successful expansion (any validly named module, any body)
attaches no diagnostics, substitutes the newline-joined fragment list into
the template, and that fragment list covers all four categories: for each of
constructor, init, event and storage it contains either the augmented user
fragment or the corresponding canned default. -/
theorem c9_all_categories_present (item name : String)
    (body : Option (List ModuleItem)) (h : is_name_valid name = true) :
    (contract item (.itemModule ⟨name, body⟩)).diagnostics = []
    ∧ (contract item (.itemModule ⟨name, body⟩)).content
        = rustReplace (rustReplace CONTRACT_PATCH ("$name$") name) ("$body$")
            (String.intercalate ("\n") (finalBodyNodes body))
    ∧ CategoriesCovered (finalBodyNodes body) := by
  refine ⟨by simp [contract, h], by simp [contract, h], categories_covered body⟩

/-- C9 witness: the theorem applied to the body-less module `Foo`. -/
theorem c9_all_categories_present_witness :
    is_name_valid ("Foo") = true
    ∧ ((contract ("orig") (.itemModule ⟨("Foo"), none⟩)).diagnostics = []
      ∧ (contract ("orig") (.itemModule ⟨("Foo"), none⟩)).content
          = rustReplace (rustReplace CONTRACT_PATCH ("$name$") ("Foo")) ("$body$")
              (String.intercalate ("\n") (finalBodyNodes none))
      ∧ CategoriesCovered (finalBodyNodes none)) :=
  ⟨by decide, c9_all_categories_present ("orig") ("Foo") none (by decide)⟩

/-- C10: on both failure paths — a non-module target, and a module whose name
fails validation — the result carries the original input token stream
unchanged as its content, together with exactly the corresponding
diagnostic. -/
theorem c10_error_passthrough (item : String) (m : ContractModule)
    (h : is_name_valid m.name = false) :
    contract item (.otherKind) = ⟨item, [INVALID_TARGET_DIAGNOSTIC]⟩
    ∧ contract item (.itemModule m) = ⟨item, [invalidNameDiagnostic m.name]⟩ := by
  refine ⟨rfl, ?_⟩
  cases m with
  | mk name body => simp [contract, h]

/-- C10 witness: the theorem applied at the invalidly named module
`My-Contract`. -/
theorem c10_error_passthrough_witness :
    is_name_valid (ContractModule.mk ("My-Contract") none).name = false
    ∧ contract ("orig") (.otherKind) = ⟨("orig"), [INVALID_TARGET_DIAGNOSTIC]⟩
    ∧ contract ("orig") (.itemModule ⟨("My-Contract"), none⟩)
        = ⟨("orig"), [invalidNameDiagnostic ("My-Contract")]⟩ :=
  ⟨by decide,
   (c10_error_passthrough ("orig") ⟨("My-Contract"), none⟩ (by decide)).1,
   (c10_error_passthrough ("orig") ⟨("My-Contract"), none⟩ (by decide)).2⟩

end DojoContractMacro
